import Mathlib

/-!
Shallow embedding of the core of the `go-aku` Discord bot (`src/main.go`):
the voice-presence entry-sound trigger, the reaction-driven help-page
pagination state machine, the converted-audio cache, and the single-flight
playback sequencer.

Modelling conventions:
* Go `string` is Lean `String`; Go `int` is Lean `Int`.
* Go maps are association lists (`assocLookup` / `assocStore`), first
  binding wins, matching map lookup and assignment for the unique-key maps
  the program builds.
* The filesystem under the sound-cache directory is the list of paths that
  exist; external failures (file create/open, voice join) and the outcome
  of the stream/timeout race are injected through explicit environment
  records so every exit path of the Go code is a reachable branch.
* Calls to external gateways (Discord, dca transcoder) are recorded as
  explicit effect values in the order the code issues them.
-/

namespace GoAku

/-! ### Constants (main.go lines 33-67) -/

def convertedSoundCachePath : String := "/tmp/aku"

def stringsPerPage : Int := 10

def previousPageEmoji : String := "⬅️"

def nextPageEmoji : String := "➡️"

def paginationReactions : List String := [previousPageEmoji, nextPageEmoji]

/-! ### Association-list model of Go maps -/

/-- Lookup in a Go `map` modelled as an association list (first binding wins). -/
def assocLookup {α : Type} (m : List (String × α)) (k : String) : Option α :=
  match m with
  | [] => none
  | (k', v) :: rest => if k' == k then some v else assocLookup rest k

/-- Go map assignment `m[k] = v`: replace the first binding of `k`, or append. -/
def assocStore {α : Type} (m : List (String × α)) (k : String) (v : α) :
    List (String × α) :=
  match m with
  | [] => [(k, v)]
  | (k', v') :: rest =>
    if k' == k then (k', v) :: rest else (k', v') :: assocStore rest k v

/-! ### Command argument normalization (main.go lines 183-193) -/

/-- Character-level model of Go `strings.Replace(s, old, new, n)` for the
single-character pattern the program uses (`old = " "`, `new = "_"`):
replaces the first `n` occurrences of `oldC` by `newC`; a negative `n`
means no limit; `n = 0` replaces nothing (exactly Go's semantics). -/
def goReplaceChar (s : List Char) (oldC newC : Char) (n : Int) : List Char :=
  match s with
  | [] => []
  | c :: cs =>
    if n = 0 then c :: cs
    else if c = oldC then newC :: goReplaceChar cs oldC newC (n - 1)
    else c :: goReplaceChar cs oldC newC n

/-- Model of Go `strings.TrimSpace` (leading and trailing whitespace removed);
the ASCII whitespace characters suffice for the command strings considered. -/
def goTrimSpace (s : List Char) : List Char :=
  let isSpaceChar := fun (c : Char) => c == ' ' || c == '\t' || c == '\n' || c == '\r'
  ((s.dropWhile isSpaceChar).reverse.dropWhile isSpaceChar).reverse

/-- `getAssetFromCommand` (main.go line 183-185):
`strings.Replace(strings.TrimSpace(command), " ", "_", 0)`.
Note the replacement count in the source is `0`. -/
def getAssetFromCommand (command : String) : String :=
  String.mk (goReplaceChar (goTrimSpace command.data) ' ' '_' 0)

/-- The asset-name normalization as the spec words it ("spaces replaced with
underscores", i.e. every occurrence, which in Go is replacement count `-1`).
Declared only to compare the code's behaviour against the spec sentence. -/
def getAssetFromCommandSpec (command : String) : String :=
  String.mk (goReplaceChar (goTrimSpace command.data) ' ' '_' (-1))

/-! ### Voice-presence entry-sound trigger (main.go lines 662-717) -/

/-- `voiceChannelState` (main.go lines 40-43). -/
structure voiceChannelState where
  channel : String
  guild : String
deriving DecidableEq

/-- The entry-sound guard of `onVoiceStateUpdate` (main.go lines 701-704),
evaluated for a user whose stored record is `previousVoiceChannel` when an
update with `eventChannelID`/`eventGuildID` arrives in a guild whose
configured AFK channel is `guildAfkChannelID`. -/
def shouldTriggerEntry (previousVoiceChannel : voiceChannelState)
    (eventChannelID eventGuildID guildAfkChannelID : String) : Bool :=
  eventChannelID != "" &&
    (previousVoiceChannel.channel == "" ||
      (guildAfkChannelID != "" && previousVoiceChannel.channel == guildAfkChannelID) ||
      previousVoiceChannel.guild != eventGuildID)

/-- The trigger condition exactly as the spec words it:
`newChannelId != "" AND (previous.channel == "" OR previous.channel == afk
OR previous.guild != newGuildId)`. Declared only to compare with the code's
`shouldTriggerEntry`, which carries an extra `afk != ""` conjunct. -/
def shouldTriggerEntrySpec (previousVoiceChannel : voiceChannelState)
    (newChannelID newGuildID afkChannelID : String) : Bool :=
  newChannelID != "" &&
    (previousVoiceChannel.channel == "" ||
      previousVoiceChannel.channel == afkChannelID ||
      previousVoiceChannel.guild != newGuildID)

/-! ### Pagination arithmetic and rendering (main.go lines 311-338, 367-369) -/

/-- `getPageRange` (main.go lines 311-318). -/
def getPageRange (page totalResults resultsPerPage : Int) : Int × Int :=
  let pageStart := page * resultsPerPage
  let pageEnd := (page + 1) * resultsPerPage
  (pageStart, if pageEnd > totalResults then totalResults else pageEnd)

/-- `totalPages` (main.go lines 367-369):
`int(math.Ceil(float64(totalResults) / float64(resultsPerPage)))`. For the
arguments the program uses (`totalResults ≥ 0`, `resultsPerPage > 0`, both
far below 2^53) the float ceiling is exact and equals this ceiling
division. -/
def totalPages (totalResults resultsPerPage : Int) : Int :=
  (totalResults + resultsPerPage - 1) / resultsPerPage

/-- The slice `allContents[pageStart:pageEnd]` taken by the closure returned
from `renderPaginatedStrings` (main.go lines 320-327). Go slicing `a[s:e]`
is drop `s` then take `e - s`. -/
def renderPageContents (allContents : List String) (page : Int) : List String :=
  let pr := getPageRange page (allContents.length : Int) stringsPerPage
  (allContents.drop pr.1.toNat).take (pr.2.toNat - pr.1.toNat)

/-- The embed produced by `renderPaginatedStrings` (main.go lines 320-338),
with the fields the code fills. -/
structure MessageEmbed where
  title : String
  description : String
  footerText : String
deriving DecidableEq

/-- `renderPaginatedStrings` (main.go lines 320-338): the page closure. -/
def renderPaginatedStrings (title : String) (allContents : List String) :
    Int → MessageEmbed :=
  fun page =>
    { title := title
      description :=
        String.join ((renderPageContents allContents page).map (fun s => s ++ "\n"))
      footerText :=
        "Page " ++ toString (page + 1) ++ "/"
          ++ toString (totalPages (allContents.length : Int) stringsPerPage) ++ "\n" }

/-! ### Help pages and the reaction state machine (main.go 69-76, 340-353, 719-763) -/

/-- `helpPage` (main.go lines 69-74) without the `renderPage` closure: the
properties under verification concern `name`, `page` and `totalPages`, and
the closure's observable output is modelled by `renderPaginatedStrings`. -/
structure helpPage where
  name : String
  page : Int
  totalPages : Int
deriving DecidableEq

/-- A lexicographic-order comparison on char lists, the order `sort.Strings`
sorts by (byte order and char order agree on the asset names involved). -/
def charListLe : List Char → List Char → Bool
  | [], _ => true
  | _ :: _, [] => false
  | a :: as, b :: bs => if a < b then true else if b < a then false else charListLe as bs

def strLe (a b : String) : Bool := charListLe a.data b.data

def insertSorted (x : String) : List String → List String
  | [] => [x]
  | y :: ys => if strLe x y then x :: y :: ys else y :: insertSorted x ys

/-- Model of Go `sort.Strings`: produces the nondecreasing permutation of
its input (insertion sort; the sorted permutation of a string multiset is
unique, so the algorithm choice is unobservable). -/
def sortStrings : List String → List String
  | [] => []
  | x :: xs => insertSorted x (sortStrings xs)

/-- `initializeAudioCategoryHelpPage` (main.go lines 340-353). The Go code
does `sounds := audioHelp[category]; sort.Strings(sounds)`: `sort.Strings`
sorts the slice's backing array in place, so the catalog entry for
`category` is left holding the sorted list. The function therefore returns
both the page (or `none` for an unknown category) and the updated catalog. -/
def initializeAudioCategoryHelpPage (audioHelp : List (String × List String))
    (category : String) : Option helpPage × List (String × List String) :=
  match assocLookup audioHelp category with
  | none => (none, audioHelp)
  | some sounds =>
    let sorted := sortStrings sounds
    (some { name := "audio/" ++ category
            page := 0
            totalPages := totalPages (sorted.length : Int) stringsPerPage },
     assocStore audioHelp category sorted)

/-- A `MessageReactionAdd` gateway event (the fields the handler reads). -/
structure ReactionEvent where
  userID : String
  messageID : String
  emoji : String
deriving DecidableEq

/-- Chat-gateway calls issued by the reaction handler, in program order. -/
inductive ReactionEffect where
  | fetchReactors (emoji : String)
  | removeReaction (emoji userID : String)
  | editMessage (messageID : String)
deriving DecidableEq

/-- One iteration of the `resetReactions` loop (main.go lines 386-411) for
one emoji. The code calls `session.MessageReactions(ch, msg, emoji, 100, "", "")`,
which returns the first page of at most 100 reactors of that emoji (in
platform order, modelled as the order of the reaction list); on a fetch
error the loop logs and removes nothing for that emoji; otherwise it walks
the fetched reactors and removes every fetched reaction not placed by the
bot. `fetchFails` injects the per-emoji fetch error; the filter is the
removal loop's net effect on the reaction state. Reactions on the message
are modelled as (emoji, reacting user) pairs. -/
def removeEmojiNonBot (fetchFails : String → Bool) (botUserID emoji : String)
    (reactions : List (String × String)) : List (String × String) :=
  if fetchFails emoji then reactions
  else
    let fetched := ((reactions.filter (fun r => r.1 == emoji)).map Prod.snd).take 100
    reactions.filter (fun r => !(r.1 == emoji && fetched.contains r.2 && !(r.2 == botUserID)))

/-- `resetReactions` (main.go lines 385-412) applied to
`paginationReactions`, as `onMessageReactionAdd` calls it: the loop walks
the two pagination emoji in order. -/
def resetReactions (fetchFails : String → Bool) (botUserID : String)
    (reactions : List (String × String)) : List (String × String) :=
  paginationReactions.foldl
    (fun rs emoji => removeEmojiNonBot fetchFails botUserID emoji rs) reactions

/-- The chat-gateway calls `resetReactions` issues: per pagination emoji,
one reactor fetch, then — when the fetch succeeds — one removal per
fetched (at most 100) non-bot reactor of that emoji. Removals for the
first emoji delete only reactions of that emoji, so the second emoji's
fetch returns the same reactors either way and the whole trace can be
computed against the incoming reaction state. -/
def resetReactionsEffects (fetchFails : String → Bool) (botUserID : String)
    (reactions : List (String × String)) : List ReactionEffect :=
  (paginationReactions.map (fun emoji =>
    if fetchFails emoji then [ReactionEffect.fetchReactors emoji]
    else ReactionEffect.fetchReactors emoji ::
      (((((reactions.filter (fun r => r.1 == emoji)).map Prod.snd).take 100).filter
          (fun u => !(u == botUserID))).map
        (fun u => ReactionEffect.removeReaction emoji u)))).flatten

/-- The candidate page computed by the `switch` in `onMessageReactionAdd`
(main.go lines 738-743): previous decrements, next increments, any other
emoji leaves the page. -/
def candidatePage (hp : helpPage) (emoji : String) : Int :=
  if emoji == previousPageEmoji then hp.page - 1
  else if emoji == nextPageEmoji then hp.page + 1
  else hp.page

/-- `onMessageReactionAdd` (main.go lines 719-763) over the model state:
the active help-page table, the reactions currently on the event's message,
and the event; `fetchFails` injects per-emoji reactor-fetch errors for the
reset. Returns the new table, the new reactions on the message, and the
chat-gateway calls issued. The bot's own events return at once; for
everyone else the reactions are reset first, then a missing session, or a
candidate page outside `[0, totalPages)`, returns without storing; an
accepted transition stores the page and edits the message in place. -/
def onMessageReactionAdd (fetchFails : String → Bool) (botUserID : String)
    (activeHelpPages : List (String × helpPage))
    (reactions : List (String × String)) (event : ReactionEvent) :
    List (String × helpPage) × List (String × String) × List ReactionEffect :=
  if event.userID == botUserID then (activeHelpPages, reactions, [])
  else
    let effects := resetReactionsEffects fetchFails botUserID reactions
    let reactions' := resetReactions fetchFails botUserID reactions
    match assocLookup activeHelpPages event.messageID with
    | none => (activeHelpPages, reactions', effects)
    | some hp =>
      let candidate := candidatePage hp event.emoji
      if candidate < 0 ∨ hp.totalPages ≤ candidate then
        (activeHelpPages, reactions', effects)
      else
        (assocStore activeHelpPages event.messageID { hp with page := candidate },
         reactions', effects ++ [ReactionEffect.editMessage event.messageID])

/-! ### Converted-audio cache and playback (main.go 262-302, 456-552) -/

/-- `getConvertedSoundCachePath` (main.go lines 285-287):
`filepath.Join(convertedSoundCachePath, soundName + ".dca")` for the
slash-free sound names the catalog holds. -/
def getConvertedSoundCachePath (soundName : String) : String :=
  convertedSoundCachePath ++ "/" ++ soundName ++ ".dca"

/-- `isSoundCached` (main.go lines 289-302): a file-existence check at the
deterministic cache path; the cache filesystem is the list of paths that
exist. A `Stat` error is treated as not cached, as the code does. -/
def isSoundCached (cacheFiles : List String) (soundName : String) : Bool :=
  cacheFiles.contains (getConvertedSoundCachePath soundName)

/-- External calls of the cache and playback pipeline, in program order. -/
inductive Effect where
  | transcode (sourcePath : String)
  | createCacheFile (path : String)
  | openCacheFile (path : String)
  | joinVoice (guild channel : String)
  | startStream
  | disconnectVoice (guild channel : String)
deriving DecidableEq

/-- `convertAndCache` (main.go lines 262-283): invoke the dca transcoder on
the original sound file, then `os.Create` the cache file and copy the
encoded stream into it. `createFails` injects an `os.Create` failure (the
function then returns with no file written). A failed copy still leaves
the created file in place, so it does not change which paths exist. -/
def convertAndCache (createFails : Bool) (cacheFiles : List String)
    (soundName originalSoundPath : String) : List String × List Effect :=
  let encodedPath := getConvertedSoundCachePath soundName
  if createFails then (cacheFiles, [Effect.transcode originalSoundPath])
  else (encodedPath :: cacheFiles,
    [Effect.transcode originalSoundPath, Effect.createCacheFile encodedPath])

/-- The ensure-cached step of `playSound` (main.go lines 468-473): check
existence at the deterministic path, transcode and write if absent, and
return the path either way (the path, the cache filesystem, the external
calls made). -/
def ensureCached (createFails : Bool) (cacheFiles : List String)
    (soundName originalSoundPath : String) :
    String × List String × List Effect :=
  if isSoundCached cacheFiles soundName then
    (getConvertedSoundCachePath soundName, cacheFiles, [])
  else
    let r := convertAndCache createFails cacheFiles soundName originalSoundPath
    (getConvertedSoundCachePath soundName, r.1, r.2)

/-- Outcome of the `select` racing the stream's done channel against the
10-second timeout (main.go lines 524-544). -/
inductive StreamResult where
  | timeout
  | streamError
  | finished
deriving DecidableEq

/-- Environment of one `playSound` invocation: which external operations
fail, and how the stream race ends. -/
structure PlayEnv where
  createFails : Bool
  openFails : Bool
  joinFails : Bool
  streamResult : StreamResult
deriving DecidableEq

/-- The global state `playSound` touches: the busy flag and the cache. -/
structure PlayState where
  audioBusy : Bool
  cacheFiles : List String
deriving DecidableEq

/-- `playSound` (main.go lines 456-552). If the busy flag is set the call
returns at once with no external call. Otherwise the flag is set and (by
`defer`) cleared on every exit path, so the returned flag is false; the
sound is ensured cached; the cached artifact is opened (an open failure
returns before any voice call); the voice channel is joined, with the
disconnect `defer` registered immediately after the join call, so a
disconnect is attempted on the join-failure path and on every later path;
then the stream runs and the timeout, stream-error and end-of-stream
outcomes all fall through to the deferred disconnect. -/
def playSound (env : PlayEnv) (st : PlayState) (soundName soundPath : String)
    (authorVoiceState : voiceChannelState) : PlayState × List Effect :=
  if st.audioBusy then (st, [])
  else
    let ec := ensureCached env.createFails st.cacheFiles soundName soundPath
    let st' : PlayState := { audioBusy := false, cacheFiles := ec.2.1 }
    let effectsOpen := ec.2.2 ++ [Effect.openCacheFile ec.1]
    if env.openFails then (st', effectsOpen)
    else
      let effectsJoin := effectsOpen ++
        [Effect.joinVoice authorVoiceState.guild authorVoiceState.channel]
      if env.joinFails then
        (st', effectsJoin ++
          [Effect.disconnectVoice authorVoiceState.guild authorVoiceState.channel])
      else
        match env.streamResult with
        | StreamResult.timeout =>
          (st', effectsJoin ++ [Effect.startStream,
            Effect.disconnectVoice authorVoiceState.guild authorVoiceState.channel])
        | StreamResult.streamError =>
          (st', effectsJoin ++ [Effect.startStream,
            Effect.disconnectVoice authorVoiceState.guild authorVoiceState.channel])
        | StreamResult.finished =>
          (st', effectsJoin ++ [Effect.startStream,
            Effect.disconnectVoice authorVoiceState.guild authorVoiceState.channel])

def isJoinEffect : Effect → Bool
  | Effect.joinVoice _ _ => true
  | _ => false

def isStreamEffect : Effect → Bool
  | Effect.startStream => true
  | _ => false

def isDisconnectEffect : Effect → Bool
  | Effect.disconnectVoice _ _ => true
  | _ => false

/-- Number of voice-channel join attempts in an effect trace. -/
def countJoins (effects : List Effect) : Nat := (effects.filter isJoinEffect).length

/-- Number of stream starts in an effect trace. -/
def countStreams (effects : List Effect) : Nat := (effects.filter isStreamEffect).length

/-- Number of voice-channel disconnect attempts in an effect trace. -/
def countDisconnects (effects : List Effect) : Nat :=
  (effects.filter isDisconnectEffect).length

/-! ### Association-list lemmas -/

theorem assocLookup_store_self {α : Type} (m : List (String × α)) (k : String) (v : α) :
    assocLookup (assocStore m k v) k = some v := by
  induction m with
  | nil => simp [assocStore, assocLookup]
  | cons kv rest ih =>
    obtain ⟨k', v'⟩ := kv
    by_cases h : k' = k
    · subst h
      simp [assocStore, assocLookup]
    · simp [assocStore, assocLookup, h, ih]

theorem assocLookup_store_ne {α : Type} (m : List (String × α)) (k k' : String) (v : α)
    (h : k' ≠ k) : assocLookup (assocStore m k v) k' = assocLookup m k' := by
  have h' : ¬(k = k') := fun hh => h hh.symm
  induction m with
  | nil => simp [assocStore, assocLookup, h']
  | cons kv rest ih =>
    obtain ⟨k₀, v₀⟩ := kv
    by_cases h0 : k₀ = k
    · subst h0
      simp [assocStore, assocLookup, h']
    · by_cases h1 : k₀ = k'
      · subst h1
        simp [assocStore, assocLookup, h0]
      · simp [assocStore, assocLookup, h0, h1, ih]

theorem assocStore_self_eq {α : Type} (m : List (String × α)) (k : String) (v : α)
    (h : assocLookup m k = some v) : assocStore m k v = m := by
  induction m with
  | nil => simp [assocLookup] at h
  | cons kv rest ih =>
    obtain ⟨k₀, v₀⟩ := kv
    by_cases h0 : k₀ = k
    · subst h0
      simp [assocLookup] at h
      simp [assocStore, h]
    · simp [assocLookup, h0] at h
      simp [assocStore, h0, ih h]

/-! ### Sorting lemmas -/

theorem insertSorted_perm (x : String) (l : List String) :
    (insertSorted x l).Perm (x :: l) := by
  induction l with
  | nil => simp [insertSorted]
  | cons y ys ih =>
    simp only [insertSorted]
    split
    · exact List.Perm.refl _
    · exact (List.Perm.cons y ih).trans (List.Perm.swap x y ys)

theorem sortStrings_perm (l : List String) : (sortStrings l).Perm l := by
  induction l with
  | nil => simp [sortStrings]
  | cons x xs ih =>
    exact (insertSorted_perm x (sortStrings xs)).trans (List.Perm.cons x ih)

/-! ### Claim C1 -/

/-- Claim C1: for a user with stored previous record `prev`, the code's
entry-sound guard (`shouldTriggerEntry`, main.go lines 701-704) fires if
and only if the spec's condition does: new channel non-empty AND (previous
channel empty OR previous channel equals the guild's AFK channel OR
previous guild differs). The code's extra `afk != ""` conjunct changes
nothing: when the AFK channel is the empty string and the previous channel
equals it, the previous channel is empty and the first disjunct already
fires. In particular the guard never fires when the new channel id is
empty (leaving voice). -/
theorem C1_entry_trigger_iff :
    ∀ (previousVoiceChannel : voiceChannelState)
      (newChannelID newGuildID afkChannelID : String),
      shouldTriggerEntry previousVoiceChannel newChannelID newGuildID afkChannelID
        = shouldTriggerEntrySpec previousVoiceChannel newChannelID newGuildID afkChannelID
      ∧ shouldTriggerEntry previousVoiceChannel "" newGuildID afkChannelID = false := by
  intro prev c g a
  constructor
  · rw [Bool.eq_iff_iff]
    simp only [shouldTriggerEntry, shouldTriggerEntrySpec, Bool.and_eq_true,
      Bool.or_eq_true, beq_iff_eq, bne_iff_ne]
    constructor
    · rintro ⟨h1, h2⟩
      refine ⟨h1, ?_⟩
      rcases h2 with (h | h) | h
      · exact Or.inl (Or.inl h)
      · exact Or.inl (Or.inr h.2)
      · exact Or.inr h
    · rintro ⟨h1, h2⟩
      refine ⟨h1, ?_⟩
      rcases h2 with (h | h) | h
      · exact Or.inl (Or.inl h)
      · by_cases ha : a = ""
        · exact Or.inl (Or.inl (ha ▸ h))
        · exact Or.inl (Or.inr ⟨ha, h⟩)
      · exact Or.inr h
  · simp [shouldTriggerEntry]

/-! ### Claim C3 -/

/-- Claim C3: a `playSound` invocation arriving while the busy flag is set
returns immediately with the state untouched and an empty effect trace: no
voice join, no cache-artifact open or write, no transcoder invocation
(main.go lines 457-461; the request is dropped, not queued). -/
theorem C3_busy_drop (env : PlayEnv) (st : PlayState) (soundName soundPath : String)
    (authorVoiceState : voiceChannelState) (h : st.audioBusy = true) :
    playSound env st soundName soundPath authorVoiceState = (st, []) := by
  simp [playSound, h]

/-- Witness for C3 at a concrete busy state. -/
theorem C3_busy_drop_witness :
    playSound ⟨false, false, false, StreamResult.finished⟩ ⟨true, []⟩
      "horn" "/var/go-aku/audio/misc/horn.mp3" ⟨"chan1", "guild1"⟩ = (⟨true, []⟩, []) :=
  C3_busy_drop _ _ _ _ _ rfl

/-! ### Claim C4 -/

/-- Claim C4: ensuring a sound is cached twice in succession yields the
same deterministic artifact path `cacheDir/<name>.dca` both times, and the
second call issues no external call at all — in particular it does not
re-invoke the transcoder — because the existence check succeeds on the
path the first call created (main.go lines 262-302, 468-473; the first
call's `os.Create` is taken to succeed). -/
theorem C4_ensure_cached_idempotent (cacheFiles : List String)
    (soundName soundPath : String) :
    (ensureCached false cacheFiles soundName soundPath).1
        = getConvertedSoundCachePath soundName
    ∧ (ensureCached false (ensureCached false cacheFiles soundName soundPath).2.1
          soundName soundPath).1
        = (ensureCached false cacheFiles soundName soundPath).1
    ∧ (ensureCached false (ensureCached false cacheFiles soundName soundPath).2.1
          soundName soundPath).2.1
        = (ensureCached false cacheFiles soundName soundPath).2.1
    ∧ (ensureCached false (ensureCached false cacheFiles soundName soundPath).2.1
          soundName soundPath).2.2 = [] := by
  by_cases h : isSoundCached cacheFiles soundName
  · simp [ensureCached, h]
  · have h2 : isSoundCached
        (getConvertedSoundCachePath soundName :: cacheFiles) soundName = true := by
      simp [isSoundCached, List.contains_cons]
    simp [ensureCached, convertAndCache, h, h2]

/-! ### Pagination lemmas and Claim C5 -/

theorem renderPageContents_eq (l : List String) (p : Nat) :
    renderPageContents l (p : Int) = (l.drop (p * 10)).take 10 := by
  simp only [renderPageContents, getPageRange, stringsPerPage]
  by_cases h : ((p : Int) + 1) * 10 > (l.length : Int)
  · rw [if_pos h]
    have h1 : ((p : Int) * 10).toNat = p * 10 := by omega
    have h2 : (l.length : Int).toNat = l.length := by omega
    rw [h1, h2]
    rw [List.take_of_length_le, List.take_of_length_le]
    all_goals rw [List.length_drop]
    all_goals omega
  · rw [if_neg h]
    have h1 : ((p : Int) * 10).toNat = p * 10 := by omega
    have h2 : (((p : Int) + 1) * 10).toNat = p * 10 + 10 := by omega
    rw [h1, h2]
    have h3 : p * 10 + 10 - p * 10 = 10 := by omega
    rw [h3]

theorem flatten_range_take (l : List String) (m : Nat) :
    ((List.range m).map (fun p => (l.drop (p * 10)).take 10)).flatten
      = l.take (m * 10) := by
  induction m with
  | zero => simp
  | succ m ih =>
    rw [List.range_succ, List.map_append, List.flatten_append, ih]
    simp only [List.map_cons, List.map_nil, List.flatten_cons, List.flatten_nil,
      List.append_nil]
    rw [Nat.succ_mul, List.take_add]

theorem totalPages_natCast (n : Nat) :
    totalPages (n : Int) stringsPerPage = (((n + 9) / 10 : Nat) : Int) := by
  simp only [totalPages, stringsPerPage]
  rw [show ((n : Int) + 10 - 1) = (((n + 9 : Nat) : Int)) by push_cast; ring]
  rw [show (10 : Int) = ((10 : Nat) : Int) by norm_num]
  rw [← Int.ofNat_ediv]

/-- Claim C5: for a content list `l`, (1) every in-range page `p` renders
exactly the slice from `p*10` to `min((p+1)*10, n)`, of length
`min(pageSize, n - p*pageSize)`; (2) the index ranges of distinct pages are
disjoint (an earlier page ends no later than a later page starts); and
(3) concatenating all `totalPages` page slices in order reproduces the list
exactly, so every element appears on exactly one page
(main.go lines 311-338, 367-369). -/
theorem C5_pagination_partition (l : List String) :
    (∀ p : Nat, (p : Int) < totalPages (l.length : Int) stringsPerPage →
      (renderPageContents l (p : Int)).length = min 10 (l.length - p * 10))
    ∧ (∀ p q : Int, p < q →
      (getPageRange p (l.length : Int) stringsPerPage).2
        ≤ (getPageRange q (l.length : Int) stringsPerPage).1)
    ∧ ((List.range (totalPages (l.length : Int) stringsPerPage).toNat).map
        (fun p : Nat => renderPageContents l (p : Int))).flatten = l := by
  refine ⟨?_, ?_, ?_⟩
  · intro p _
    rw [renderPageContents_eq, List.length_take, List.length_drop]
  · intro p q hpq
    simp only [getPageRange, stringsPerPage]
    split
    · omega
    · omega
  · have e1 : ∀ p ∈ List.range (totalPages (l.length : Int) stringsPerPage).toNat,
        renderPageContents l (p : Int) = (l.drop (p * 10)).take 10 :=
      fun p _ => renderPageContents_eq l p
    rw [List.map_congr_left e1, flatten_range_take]
    rw [totalPages_natCast, Int.toNat_ofNat]
    apply List.take_of_length_le
    omega

/-- Witness for C5: the in-range-page and disjointness parts applied to a
concrete three-element list. -/
theorem C5_pagination_partition_witness :
    (renderPageContents ["bell", "chime", "horn"] ((0 : Nat) : Int)).length
        = min 10 (["bell", "chime", "horn"].length - 0 * 10)
    ∧ (getPageRange 0 ((["bell", "chime", "horn"].length : Nat) : Int) stringsPerPage).2
        ≤ (getPageRange 1 ((["bell", "chime", "horn"].length : Nat) : Int) stringsPerPage).1 :=
  ⟨(C5_pagination_partition ["bell", "chime", "horn"]).1 0 (by decide),
   (C5_pagination_partition ["bell", "chime", "horn"]).2.1 0 1 (by decide)⟩

/-! ### Claim C6 -/

/-- Claim C6 (code bug): the spec says spaces in a command argument are
replaced by underscores, but `getAssetFromCommand` (main.go line 184) calls
`strings.Replace` with replacement count `0`, which in Go replaces nothing;
the intended all-occurrences count is `-1`. At the argument
`"hello world"` the code returns it unchanged while the spec's
normalization yields `"hello_world"`. -/
theorem C6_space_replacement_bug :
    getAssetFromCommand "hello world" = "hello world"
    ∧ getAssetFromCommandSpec "hello world" = "hello_world"
    ∧ getAssetFromCommand "hello world" ≠ getAssetFromCommandSpec "hello world" := by
  refine ⟨?_, ?_, ?_⟩ <;> decide

/-! ### Reaction state-machine lemmas -/

theorem candidatePage_prev (hp : helpPage) :
    candidatePage hp previousPageEmoji = hp.page - 1 := by
  simp [candidatePage]

theorem candidatePage_next (hp : helpPage) :
    candidatePage hp nextPageEmoji = hp.page + 1 := by
  have h : (nextPageEmoji == previousPageEmoji) = false := by decide
  simp [candidatePage, h]

theorem candidatePage_other (hp : helpPage) (emoji : String)
    (h : emoji ∉ paginationReactions) : candidatePage hp emoji = hp.page := by
  have h1 : ¬(emoji = previousPageEmoji) := by
    intro hh
    exact h (by simp [paginationReactions, hh])
  have h2 : ¬(emoji = nextPageEmoji) := by
    intro hh
    exact h (by simp [paginationReactions, hh])
  simp [candidatePage, h1, h2]

theorem onMessageReactionAdd_bot (fetchFails : String → Bool) (botUserID : String)
    (sessions : List (String × helpPage)) (reactions : List (String × String))
    (event : ReactionEvent) (h : event.userID = botUserID) :
    onMessageReactionAdd fetchFails botUserID sessions reactions event
      = (sessions, reactions, []) := by
  simp [onMessageReactionAdd, h]

theorem onMessageReactionAdd_nosession (fetchFails : String → Bool) (botUserID : String)
    (sessions : List (String × helpPage)) (reactions : List (String × String))
    (event : ReactionEvent) (h1 : event.userID ≠ botUserID)
    (h2 : assocLookup sessions event.messageID = none) :
    onMessageReactionAdd fetchFails botUserID sessions reactions event
      = (sessions, resetReactions fetchFails botUserID reactions,
          resetReactionsEffects fetchFails botUserID reactions) := by
  simp [onMessageReactionAdd, h1, h2]

theorem onMessageReactionAdd_reject (fetchFails : String → Bool) (botUserID : String)
    (sessions : List (String × helpPage)) (reactions : List (String × String))
    (event : ReactionEvent) (hp : helpPage) (h1 : event.userID ≠ botUserID)
    (h2 : assocLookup sessions event.messageID = some hp)
    (h3 : candidatePage hp event.emoji < 0
      ∨ hp.totalPages ≤ candidatePage hp event.emoji) :
    onMessageReactionAdd fetchFails botUserID sessions reactions event
      = (sessions, resetReactions fetchFails botUserID reactions,
          resetReactionsEffects fetchFails botUserID reactions) := by
  simp [onMessageReactionAdd, h1, h2, h3]

theorem onMessageReactionAdd_accept (fetchFails : String → Bool) (botUserID : String)
    (sessions : List (String × helpPage)) (reactions : List (String × String))
    (event : ReactionEvent) (hp : helpPage) (h1 : event.userID ≠ botUserID)
    (h2 : assocLookup sessions event.messageID = some hp)
    (h3 : ¬(candidatePage hp event.emoji < 0
      ∨ hp.totalPages ≤ candidatePage hp event.emoji)) :
    onMessageReactionAdd fetchFails botUserID sessions reactions event
      = (assocStore sessions event.messageID
            { hp with page := candidatePage hp event.emoji },
          resetReactions fetchFails botUserID reactions,
          resetReactionsEffects fetchFails botUserID reactions
            ++ [ReactionEffect.editMessage event.messageID]) := by
  simp [onMessageReactionAdd, h1, h2, h3]

theorem filter_filter_bool {α : Type} (p q : α → Bool) (l : List α) :
    (l.filter p).filter q = l.filter (fun a => p a && q a) := by
  induction l with
  | nil => rfl
  | cons x xs ih =>
    cases hp : p x <;> cases hq : q x <;> simp [List.filter_cons, hp, hq, ih]

/-- A reaction that is not a non-bot use of `emoji` survives one reset
iteration, whichever way the fetch goes: the iteration either leaves the
state alone (fetch error) or filters out only fetched non-bot reactions of
that emoji. -/
theorem mem_removeEmojiNonBot (fetchFails : String → Bool) (botUserID emoji : String)
    (reactions : List (String × String)) (r : String × String) (hr : r ∈ reactions)
    (hcond : ¬(r.1 = emoji ∧ r.2 ≠ botUserID)) :
    r ∈ removeEmojiNonBot fetchFails botUserID emoji reactions := by
  simp only [removeEmojiNonBot]
  split
  · exact hr
  · refine List.mem_filter.mpr ⟨hr, ?_⟩
    by_cases h1 : r.1 = emoji
    · have h2 : r.2 = botUserID := by
        by_contra hne
        exact hcond ⟨h1, hne⟩
      simp [h2]
    · simp [h1]

/-- When the reactor fetch for `emoji` succeeds and at most 100 reactions
use `emoji` (so one fetch page covers every reactor), the iteration
removes exactly the non-bot reactions of that emoji. -/
theorem removeEmojiNonBot_complete (fetchFails : String → Bool) (botUserID emoji : String)
    (reactions : List (String × String)) (hf : fetchFails emoji = false)
    (hlen : (reactions.filter (fun r => r.1 == emoji)).length ≤ 100) :
    removeEmojiNonBot fetchFails botUserID emoji reactions
      = reactions.filter (fun r => !(r.1 == emoji && !(r.2 == botUserID))) := by
  have htake : ((reactions.filter (fun r => r.1 == emoji)).map Prod.snd).take 100
      = (reactions.filter (fun r => r.1 == emoji)).map Prod.snd :=
    List.take_of_length_le (by rw [List.length_map]; exact hlen)
  simp only [removeEmojiNonBot, hf, Bool.false_eq_true, if_false]
  apply List.filter_congr
  intro r hr
  by_cases h1 : r.1 = emoji
  · have hbeq : (r.1 == emoji) = true := by simp [h1]
    have hmem : r.2 ∈ (reactions.filter (fun r => r.1 == emoji)).map Prod.snd :=
      List.mem_map.mpr ⟨r, List.mem_filter.mpr ⟨hr, hbeq⟩, rfl⟩
    have hcont : (((reactions.filter (fun r => r.1 == emoji)).map Prod.snd).take 100).contains r.2
        = true := by
      rw [htake]
      exact List.elem_eq_true_of_mem hmem
    simp only [hbeq, hcont, Bool.true_and]
  · have hbeq : (r.1 == emoji) = false := by simp [h1]
    simp only [hbeq, Bool.false_and]

/-- The net change `resetReactions` makes to the reactions on a message
when both reactor fetches succeed and each pagination emoji has at most
100 reactors: precisely the reactions that use one of the two pagination
emoji and were not placed by the bot are removed. -/
theorem resetReactions_complete (fetchFails : String → Bool) (botUserID : String)
    (reactions : List (String × String))
    (hfp : fetchFails previousPageEmoji = false)
    (hfn : fetchFails nextPageEmoji = false)
    (hlp : (reactions.filter (fun r => r.1 == previousPageEmoji)).length ≤ 100)
    (hln : (reactions.filter (fun r => r.1 == nextPageEmoji)).length ≤ 100) :
    resetReactions fetchFails botUserID reactions
      = reactions.filter
          (fun r => !((r.1 == previousPageEmoji || r.1 == nextPageEmoji)
            && !(r.2 == botUserID))) := by
  have key : ∀ a b c : Bool, ((!(a && c)) && (!(b && c))) = !((a || b) && c) := by decide
  have step : resetReactions fetchFails botUserID reactions
      = removeEmojiNonBot fetchFails botUserID nextPageEmoji
          (removeEmojiNonBot fetchFails botUserID previousPageEmoji reactions) := rfl
  rw [step,
    removeEmojiNonBot_complete fetchFails botUserID previousPageEmoji reactions hfp hlp]
  have hcomm : (reactions.filter
        (fun r => !(r.1 == previousPageEmoji && !(r.2 == botUserID)))).filter
        (fun r => r.1 == nextPageEmoji)
      = reactions.filter (fun r => r.1 == nextPageEmoji) := by
    rw [filter_filter_bool]
    apply List.filter_congr
    intro r _
    cases h2 : (r.1 == nextPageEmoji)
    · simp
    · have hrn : r.1 = nextPageEmoji := beq_iff_eq.mp h2
      have h1 : (r.1 == previousPageEmoji) = false := by
        rw [hrn]
        decide
      simp [h1]
  rw [removeEmojiNonBot_complete fetchFails botUserID nextPageEmoji _ hfn
    (by rw [hcomm]; exact hln)]
  rw [filter_filter_bool]
  apply List.filter_congr
  intro r _
  exact key _ _ _

/-! ### Claim C2 -/

/-- Claim C2 counterexample: the claim's invariant fails on a reachable
session. A category directory with no files yields an empty sound list, so
`!akuh` stores a session with `totalPages = 0` and `page = 0` (main.go
lines 340-353); after a "next" reaction on it the transition is rejected
and the stored page, still `0`, does not satisfy
`0 ≤ page < totalPages = 0`. -/
theorem C2_counterexample :
    assocLookup (onMessageReactionAdd (fun _ => false) "bot"
        [("m", { name := "audio/empty", page := 0, totalPages := 0 })] []
        { userID := "alice", messageID := "m", emoji := nextPageEmoji }).1 "m"
      = some { name := "audio/empty", page := 0, totalPages := 0 }
    ∧ ¬((0 : Int) ≤ 0 ∧ (0 : Int) < 0) := by
  refine ⟨by decide, by decide⟩

/-- Claim C2 (amended): for a stored help session that satisfies the
invariant `0 ≤ page < totalPages`, every reaction transition preserves the
invariant — an in-range candidate is stored, an out-of-range candidate is
rejected with the table untouched; and in particular a "previous" reaction
at page 0 and a "next" reaction at page `totalPages - 1` compute an
out-of-bounds candidate, are rejected, and leave the session table
unchanged (main.go lines 738-751). -/
theorem C2_page_invariant (fetchFails : String → Bool) (botUserID : String)
    (sessions : List (String × helpPage)) (reactions : List (String × String))
    (event : ReactionEvent) (hp : helpPage)
    (hfound : assocLookup sessions event.messageID = some hp)
    (hlo : 0 ≤ hp.page) (hhi : hp.page < hp.totalPages) :
    (∀ hp', assocLookup
        (onMessageReactionAdd fetchFails botUserID sessions reactions event).1
        event.messageID = some hp' → 0 ≤ hp'.page ∧ hp'.page < hp'.totalPages)
    ∧ ((event.emoji = previousPageEmoji ∧ hp.page = 0)
        ∨ (event.emoji = nextPageEmoji ∧ hp.page = hp.totalPages - 1) →
      (onMessageReactionAdd fetchFails botUserID sessions reactions event).1
        = sessions) := by
  constructor
  · intro hp' hlook
    by_cases hbot : event.userID = botUserID
    · rw [onMessageReactionAdd_bot fetchFails botUserID sessions reactions event
        hbot] at hlook
      rw [hfound] at hlook
      injection hlook with he
      subst he
      exact ⟨hlo, hhi⟩
    · by_cases hrej : candidatePage hp event.emoji < 0
          ∨ hp.totalPages ≤ candidatePage hp event.emoji
      · rw [onMessageReactionAdd_reject fetchFails botUserID sessions reactions event hp
          hbot hfound hrej] at hlook
        rw [hfound] at hlook
        injection hlook with he
        subst he
        exact ⟨hlo, hhi⟩
      · rw [onMessageReactionAdd_accept fetchFails botUserID sessions reactions event hp
          hbot hfound hrej] at hlook
        rw [assocLookup_store_self] at hlook
        injection hlook with he
        subst he
        push_neg at hrej
        exact ⟨hrej.1, hrej.2⟩
  · intro hcase
    by_cases hbot : event.userID = botUserID
    · rw [onMessageReactionAdd_bot fetchFails botUserID sessions reactions event hbot]
    · have hrej : candidatePage hp event.emoji < 0
          ∨ hp.totalPages ≤ candidatePage hp event.emoji := by
        rcases hcase with ⟨he, hpage⟩ | ⟨he, hpage⟩
        · left
          rw [he, candidatePage_prev, hpage]
          norm_num
        · right
          rw [he, candidatePage_next, hpage]
          omega
      rw [onMessageReactionAdd_reject fetchFails botUserID sessions reactions event hp
        hbot hfound hrej]

/-- Witness for C2 (amended): a "previous" reaction at page 0 of a concrete
two-page session leaves the session table unchanged. -/
theorem C2_page_invariant_witness :
    (onMessageReactionAdd (fun _ => false) "bot"
        [("m", { name := "audio/greetings", page := 0, totalPages := 2 })] []
        { userID := "alice", messageID := "m", emoji := previousPageEmoji }).1
      = [("m", { name := "audio/greetings", page := 0, totalPages := 2 })] :=
  (C2_page_invariant (fun _ => false) "bot"
      [("m", { name := "audio/greetings", page := 0, totalPages := 2 })] []
      { userID := "alice", messageID := "m", emoji := previousPageEmoji }
      { name := "audio/greetings", page := 0, totalPages := 2 }
      rfl (by decide) (by decide)).2 (Or.inl ⟨rfl, rfl⟩)

/-! ### Claim C8 -/

/-- Claim C8 counterexample: a reaction whose emoji is not one of the two
pagination markers is NOT removed. `resetReactions` is only ever invoked on
`paginationReactions` (main.go line 725), so after alice reacts with a
smiley on a tracked help message, her smiley — not a bot pagination
marker — is still present. -/
theorem C8_counterexample :
    ("🙂", "alice") ∈ (onMessageReactionAdd (fun _ => false) "bot"
        [("m", { name := "audio/pets", page := 0, totalPages := 1 })]
        [("🙂", "alice")]
        { userID := "alice", messageID := "m", emoji := "🙂" }).2.1
    ∧ ¬("🙂" ∈ paginationReactions ∧ ("alice" : String) = "bot") := by
  refine ⟨by decide, by decide⟩

/-- Claim C8 (amended): after every reaction-add event the handler's reset
removes only reactions that use one of the two pagination emoji and were
not placed by the bot — reactions with any other emoji, and the bot's own
markers, always survive, whatever the reactor fetches do; when both
reactor fetches succeed and each pagination emoji has at most 100 reactors
(one `MessageReactions` page, main.go line 388), exactly those non-bot
pagination reactions are removed; and a reaction with a non-pagination
emoji leaves the session table unchanged (the candidate page equals the
current page, so the handler stores the same session back or rejects;
main.go lines 385-412, 719-751). -/
theorem C8_reset_only_pagination (fetchFails : String → Bool) (botUserID : String)
    (sessions : List (String × helpPage)) (reactions : List (String × String))
    (event : ReactionEvent) (hemoji : event.emoji ∉ paginationReactions) :
    (∀ r ∈ reactions,
      ¬((r.1 = previousPageEmoji ∨ r.1 = nextPageEmoji) ∧ r.2 ≠ botUserID) →
        r ∈ resetReactions fetchFails botUserID reactions)
    ∧ ((∀ e ∈ paginationReactions, fetchFails e = false
          ∧ (reactions.filter (fun r => r.1 == e)).length ≤ 100) →
        resetReactions fetchFails botUserID reactions
          = reactions.filter
              (fun r => !((r.1 == previousPageEmoji || r.1 == nextPageEmoji)
                && !(r.2 == botUserID))))
    ∧ (onMessageReactionAdd fetchFails botUserID sessions reactions event).1
        = sessions := by
  refine ⟨?_, ?_, ?_⟩
  · intro r hr hcond
    have h1 : ¬(r.1 = previousPageEmoji ∧ r.2 ≠ botUserID) :=
      fun hc => hcond ⟨Or.inl hc.1, hc.2⟩
    have h2 : ¬(r.1 = nextPageEmoji ∧ r.2 ≠ botUserID) :=
      fun hc => hcond ⟨Or.inr hc.1, hc.2⟩
    have s1 : r ∈ removeEmojiNonBot fetchFails botUserID previousPageEmoji reactions :=
      mem_removeEmojiNonBot fetchFails botUserID previousPageEmoji reactions r hr h1
    show r ∈ removeEmojiNonBot fetchFails botUserID nextPageEmoji
      (removeEmojiNonBot fetchFails botUserID previousPageEmoji reactions)
    exact mem_removeEmojiNonBot fetchFails botUserID nextPageEmoji _ r s1 h2
  · intro hcap
    have hp := hcap previousPageEmoji (by decide)
    have hn := hcap nextPageEmoji (by decide)
    exact resetReactions_complete fetchFails botUserID reactions hp.1 hn.1 hp.2 hn.2
  · by_cases hbot : event.userID = botUserID
    · rw [onMessageReactionAdd_bot fetchFails botUserID sessions reactions event hbot]
    · cases hlook : assocLookup sessions event.messageID with
      | none =>
        rw [onMessageReactionAdd_nosession fetchFails botUserID sessions reactions
          event hbot hlook]
      | some hp =>
        by_cases hrej : candidatePage hp event.emoji < 0
            ∨ hp.totalPages ≤ candidatePage hp event.emoji
        · rw [onMessageReactionAdd_reject fetchFails botUserID sessions reactions
            event hp hbot hlook hrej]
        · rw [onMessageReactionAdd_accept fetchFails botUserID sessions reactions
            event hp hbot hlook hrej]
          show assocStore sessions event.messageID
              { hp with page := candidatePage hp event.emoji } = sessions
          rw [candidatePage_other hp event.emoji hemoji]
          exact assocStore_self_eq sessions event.messageID hp hlook

/-- Witness for C8 (amended) at a concrete smiley reaction: the smiley
survives the reset, the reset equals the exact filter (fetches succeed,
one reactor per emoji), and the session table is unchanged. -/
theorem C8_reset_only_pagination_witness :
    ("🙂", "alice") ∈ resetReactions (fun _ => false) "bot" [("🙂", "alice")]
    ∧ resetReactions (fun _ => false) "bot" [("🙂", "alice")]
      = [("🙂", "alice")].filter
          (fun r => !((r.1 == previousPageEmoji || r.1 == nextPageEmoji)
            && !(r.2 == "bot")))
    ∧ (onMessageReactionAdd (fun _ => false) "bot"
        [("m", { name := "audio/pets", page := 0, totalPages := 1 })]
        [("🙂", "alice")]
        { userID := "alice", messageID := "m", emoji := "🙂" }).1
      = [("m", { name := "audio/pets", page := 0, totalPages := 1 })] :=
  ⟨(C8_reset_only_pagination (fun _ => false) "bot"
      [("m", { name := "audio/pets", page := 0, totalPages := 1 })]
      [("🙂", "alice")]
      { userID := "alice", messageID := "m", emoji := "🙂" } (by decide)).1
      ("🙂", "alice") (by decide) (by decide),
   (C8_reset_only_pagination (fun _ => false) "bot"
      [("m", { name := "audio/pets", page := 0, totalPages := 1 })]
      [("🙂", "alice")]
      { userID := "alice", messageID := "m", emoji := "🙂" } (by decide)).2.1
      (by decide),
   (C8_reset_only_pagination (fun _ => false) "bot"
      [("m", { name := "audio/pets", page := 0, totalPages := 1 })]
      [("🙂", "alice")]
      { userID := "alice", messageID := "m", emoji := "🙂" } (by decide)).2.2⟩

/-! ### Claim C10 -/

/-- Claim C10: for a reaction-add event from a non-bot user on a message
with no active help session, the handler still performs the full reaction
reset before the session lookup returns — the session table is unchanged
while the reset's fetches and removals are issued (main.go lines 719-730).
In particular, whenever the reactor fetch for a pagination emoji succeeds
and that emoji has at most 100 reactors (one `MessageReactions` page), an
arrow reaction by any non-bot user on the untracked message draws a
removal call. -/
theorem C10_untracked_reset (fetchFails : String → Bool) (botUserID : String)
    (sessions : List (String × helpPage)) (reactions : List (String × String))
    (event : ReactionEvent) (h1 : event.userID ≠ botUserID)
    (h2 : assocLookup sessions event.messageID = none) :
    onMessageReactionAdd fetchFails botUserID sessions reactions event
      = (sessions, resetReactions fetchFails botUserID reactions,
          resetReactionsEffects fetchFails botUserID reactions)
    ∧ ∀ emoji userID, emoji ∈ paginationReactions →
        fetchFails emoji = false →
        (reactions.filter (fun r => r.1 == emoji)).length ≤ 100 →
        userID ≠ botUserID → (emoji, userID) ∈ reactions →
        ReactionEffect.removeReaction emoji userID
          ∈ resetReactionsEffects fetchFails botUserID reactions := by
  refine ⟨onMessageReactionAdd_nosession fetchFails botUserID sessions reactions
    event h1 h2, ?_⟩
  intro emoji userID hm hf hlen hu hr
  have htake : ((reactions.filter (fun r => r.1 == emoji)).map Prod.snd).take 100
      = (reactions.filter (fun r => r.1 == emoji)).map Prod.snd :=
    List.take_of_length_le (by rw [List.length_map]; exact hlen)
  simp only [resetReactionsEffects, List.mem_flatten]
  refine ⟨(if fetchFails emoji then [ReactionEffect.fetchReactors emoji]
    else ReactionEffect.fetchReactors emoji ::
      (((((reactions.filter (fun r => r.1 == emoji)).map Prod.snd).take 100).filter
          (fun u => !(u == botUserID))).map
        (fun u => ReactionEffect.removeReaction emoji u))),
    List.mem_map.mpr ⟨emoji, hm, rfl⟩, ?_⟩
  rw [hf]
  simp only [Bool.false_eq_true, if_false]
  apply List.mem_cons_of_mem
  rw [htake]
  exact List.mem_map.mpr ⟨userID,
    List.mem_filter.mpr
      ⟨List.mem_map.mpr ⟨(emoji, userID), List.mem_filter.mpr ⟨hr, by simp⟩, rfl⟩,
        by simp [hu]⟩, rfl⟩

/-- Witness for C10: alice's left-arrow reaction on an untracked message
draws a removal call even though no session exists for the message (one
reactor, so the 100-reactor fetch page covers it, and the fetch
succeeds). -/
theorem C10_untracked_reset_witness :
    onMessageReactionAdd (fun _ => false) "bot" [] [(previousPageEmoji, "alice")]
        { userID := "alice", messageID := "m", emoji := previousPageEmoji }
      = ([], resetReactions (fun _ => false) "bot" [(previousPageEmoji, "alice")],
          resetReactionsEffects (fun _ => false) "bot" [(previousPageEmoji, "alice")])
    ∧ ReactionEffect.removeReaction previousPageEmoji "alice"
        ∈ resetReactionsEffects (fun _ => false) "bot" [(previousPageEmoji, "alice")] :=
  ⟨(C10_untracked_reset (fun _ => false) "bot" [] [(previousPageEmoji, "alice")]
      { userID := "alice", messageID := "m", emoji := previousPageEmoji }
      (by decide) rfl).1,
   (C10_untracked_reset (fun _ => false) "bot" [] [(previousPageEmoji, "alice")]
      { userID := "alice", messageID := "m", emoji := previousPageEmoji }
      (by decide) rfl).2 previousPageEmoji "alice" (by decide) rfl (by decide)
      (by decide) (by decide)⟩

/-! ### Claim C7 -/

/-- Claim C7 counterexample: an invocation that passes the busy-flag gate
but fails to open the cached artifact (main.go lines 474-483, reachable
when the earlier `os.Create` failed or the source file was missing)
returns before the voice join, so it performs zero join attempts and zero
disconnect attempts — not "exactly one" of each. -/
theorem C7_counterexample :
    ¬(countJoins (playSound
          { createFails := true, openFails := true, joinFails := false,
            streamResult := StreamResult.finished }
          { audioBusy := false, cacheFiles := [] }
          "horn" "/var/go-aku/audio/misc/horn.mp3"
          { channel := "chan1", guild := "guild1" }).2 = 1
      ∧ countDisconnects (playSound
          { createFails := true, openFails := true, joinFails := false,
            streamResult := StreamResult.finished }
          { audioBusy := false, cacheFiles := [] }
          "horn" "/var/go-aku/audio/misc/horn.mp3"
          { channel := "chan1", guild := "guild1" }).2 = 1) := by
  decide

/-- Claim C7 (amended): every invocation that passes the busy-flag gate and
successfully opens the cached artifact performs exactly one voice join
attempt, at most one stream, and exactly one disconnect attempt, with the
disconnect attempted on every exit path from the join call on — join
failure, stream timeout, stream error and clean completion alike (main.go
lines 495-552; the disconnect runs from a `defer` registered immediately
after the join call). -/
theorem C7_gateway_effects (env : PlayEnv) (st : PlayState)
    (soundName soundPath : String) (authorVoiceState : voiceChannelState)
    (h1 : st.audioBusy = false) (h2 : env.openFails = false) :
    countJoins (playSound env st soundName soundPath authorVoiceState).2 = 1
    ∧ countStreams (playSound env st soundName soundPath authorVoiceState).2 ≤ 1
    ∧ countDisconnects (playSound env st soundName soundPath authorVoiceState).2 = 1 := by
  cases hc : isSoundCached st.cacheFiles soundName <;>
  cases hcf : env.createFails <;>
  cases hjf : env.joinFails <;>
  cases hsr : env.streamResult <;>
    simp [playSound, ensureCached, convertAndCache, h1, h2, hc, hcf, hjf, hsr,
      countJoins, countStreams, countDisconnects, isJoinEffect, isStreamEffect,
      isDisconnectEffect, List.filter_append, List.filter_cons]

/-- Witness for C7 (amended) at a concrete clean run on a cold cache. -/
theorem C7_gateway_effects_witness :
    countJoins (playSound
        { createFails := false, openFails := false, joinFails := false,
          streamResult := StreamResult.finished }
        { audioBusy := false, cacheFiles := [] }
        "horn" "/var/go-aku/audio/misc/horn.mp3"
        { channel := "chan1", guild := "guild1" }).2 = 1
    ∧ countStreams (playSound
        { createFails := false, openFails := false, joinFails := false,
          streamResult := StreamResult.finished }
        { audioBusy := false, cacheFiles := [] }
        "horn" "/var/go-aku/audio/misc/horn.mp3"
        { channel := "chan1", guild := "guild1" }).2 ≤ 1
    ∧ countDisconnects (playSound
        { createFails := false, openFails := false, joinFails := false,
          streamResult := StreamResult.finished }
        { audioBusy := false, cacheFiles := [] }
        "horn" "/var/go-aku/audio/misc/horn.mp3"
        { channel := "chan1", guild := "guild1" }).2 = 1 :=
  C7_gateway_effects
    { createFails := false, openFails := false, joinFails := false,
      streamResult := StreamResult.finished }
    { audioBusy := false, cacheFiles := [] }
    "horn" "/var/go-aku/audio/misc/horn.mp3"
    { channel := "chan1", guild := "guild1" } rfl rfl

/-! ### Claim C9 -/

/-- Claim C9 counterexample: serving category help mutates the Asset
Catalog's order. `initializeAudioCategoryHelpPage` runs
`sort.Strings(sounds)` on the slice held by the `audioHelp` map (main.go
line 345), sorting it in place: for a category stored as
`["chime", "bell"]` the catalog afterwards holds `["bell", "chime"]`, a
different order from the original. -/
theorem C9_counterexample :
    assocLookup (initializeAudioCategoryHelpPage
        [("greetings", ["chime", "bell"])] "greetings").2 "greetings"
      = some ["bell", "chime"]
    ∧ (["bell", "chime"] : List String) ≠ ["chime", "bell"] := by
  refine ⟨by decide, by decide⟩

/-- Claim C9 (amended): the help-page operation never touches the
asset-name-to-path map and never changes which names a category holds —
every other category's list is untouched, an unknown category leaves the
catalog untouched, and the requested category's list is replaced in place
by a permutation of itself (its sorted order); only the order within that
one category's list can change. -/
theorem C9_catalog_mutation (audioHelp : List (String × List String))
    (category : String) :
    (∀ other, other ≠ category →
      assocLookup (initializeAudioCategoryHelpPage audioHelp category).2 other
        = assocLookup audioHelp other)
    ∧ (∀ sounds, assocLookup audioHelp category = some sounds →
        assocLookup (initializeAudioCategoryHelpPage audioHelp category).2 category
          = some (sortStrings sounds)
        ∧ (sortStrings sounds).Perm sounds)
    ∧ (assocLookup audioHelp category = none →
        (initializeAudioCategoryHelpPage audioHelp category).2 = audioHelp) := by
  refine ⟨?_, ?_, ?_⟩
  · intro other hne
    cases hlook : assocLookup audioHelp category with
    | none => simp [initializeAudioCategoryHelpPage, hlook]
    | some sounds =>
      simp only [initializeAudioCategoryHelpPage, hlook]
      exact assocLookup_store_ne audioHelp category other (sortStrings sounds) hne
  · intro sounds hlook
    simp only [initializeAudioCategoryHelpPage, hlook]
    exact ⟨assocLookup_store_self audioHelp category (sortStrings sounds),
      sortStrings_perm sounds⟩
  · intro hlook
    simp [initializeAudioCategoryHelpPage, hlook]

/-- Witness for C9 (amended) on a concrete two-category catalog. -/
theorem C9_catalog_mutation_witness :
    assocLookup (initializeAudioCategoryHelpPage
        [("greetings", ["chime", "bell"]), ("farewell", ["bye"])] "greetings").2 "farewell"
      = assocLookup [("greetings", ["chime", "bell"]), ("farewell", ["bye"])] "farewell"
    ∧ assocLookup (initializeAudioCategoryHelpPage
        [("greetings", ["chime", "bell"]), ("farewell", ["bye"])] "greetings").2 "greetings"
      = some (sortStrings ["chime", "bell"])
    ∧ (sortStrings ["chime", "bell"]).Perm ["chime", "bell"] :=
  ⟨(C9_catalog_mutation
      [("greetings", ["chime", "bell"]), ("farewell", ["bye"])] "greetings").1
      "farewell" (by decide),
   ((C9_catalog_mutation
      [("greetings", ["chime", "bell"]), ("farewell", ["bye"])] "greetings").2.1
      ["chime", "bell"] rfl).1,
   ((C9_catalog_mutation
      [("greetings", ["chime", "bell"]), ("farewell", ["bye"])] "greetings").2.1
      ["chime", "bell"] rfl).2⟩

end GoAku
